import Mathlib

/-!
Shallow embedding of the MarketPulse workshop repository
(mantel-lab/aws-agentcore-workshop), covering the two decision components:

* `src/lambda/scorer.py` — the risk-profile suitability scorer
  (`VOLATILITY_MAP`, `SUITABILITY_MATRIX`, `handler`, `_error_response`);
* `src/mcp-server/server.py` — the market-holiday window computation
  (`check_market_holidays`).

Python strings are modelled as Lean `String`; `str.strip`, `str.upper`,
`str.lower`, `sorted` and string comparison are embedded as executable
char-list operations (`pyStrip`, `pyUpper`, `pyLower`, `pysorted`,
`pyStrLt`) that agree with Python on the ASCII data this program
manipulates.
Python dicts used as lookup tables are modelled as association lists with
`List.find?`; `dict.get(k, default)` becomes `find?` followed by `getD`.
The JSON serialisation layer (`json.dumps`) is a bijection on the record
shapes involved, so response bodies are modelled structurally.
Calendar dates/datetimes are modelled by their rata-die day number (an
`Int`); `datetime.now()` is an injected parameter, `timedelta(days=n)`
is integer addition, and `.year` is computed by the standard
civil-from-days calendar algorithm.
-/

/- ---------------------------------------------------------------------
   Python string primitives (ASCII-faithful, kernel-executable)
   --------------------------------------------------------------------- -/

/-- Python `str.strip()`: drop leading and trailing whitespace. -/
def pyStrip (s : String) : String :=
  ⟨((s.data.dropWhile Char.isWhitespace).reverse.dropWhile Char.isWhitespace).reverse⟩

/-- Python `str.upper()` on ASCII data. -/
def pyUpper (s : String) : String := ⟨s.data.map Char.toUpper⟩

/-- Python `str.lower()` on ASCII data. -/
def pyLower (s : String) : String := ⟨s.data.map Char.toLower⟩

/-- Code-point lexicographic order on char lists (Python `<` on `str`). -/
def strLtList : List Char → List Char → Bool
  | [], [] => false
  | [], _ :: _ => true
  | _ :: _, [] => false
  | a :: as, b :: bs =>
    if a.toNat < b.toNat then true
    else if b.toNat < a.toNat then false
    else strLtList as bs

/-- Python `<` on strings. -/
def pyStrLt (a b : String) : Bool := strLtList a.data b.data

/-- Insert into an ascending list (auxiliary for `pysorted`). -/
def insertAsc (a : String) : List String → List String
  | [] => [a]
  | b :: bs => if pyStrLt b a then b :: insertAsc a bs else a :: b :: bs

/-- Python `sorted` on a collection of strings (ascending insertion sort;
agrees with any stable ascending sort on distinct keys). -/
def pysorted : List String → List String
  | [] => []
  | a :: as => insertAsc a (pysorted as)

/- ---------------------------------------------------------------------
   scorer.py : data tables
   --------------------------------------------------------------------- -/

/-- The dict `VOLATILITY_MAP` from scorer.py, as an association list (the Python
dict literal, in source order). -/
def VOLATILITY_MAP : List (String × String) :=
  [ ("AAPL", "low"),
    ("MSFT", "low"),
    ("BRK.B", "low"),
    ("JNJ", "low"),
    ("GOOGL", "medium"),
    ("AMZN", "medium"),
    ("META", "medium"),
    ("V", "low"),
    ("TSLA", "high"),
    ("NVDA", "high"),
    ("AMD", "high"),
    ("COIN", "high") ]

/-- The dict `SUITABILITY_MATRIX` from scorer.py: (risk_profile, volatility) ->
(suitability, reasoning), in source order, reasoning strings verbatim. -/
def SUITABILITY_MATRIX : List ((String × String) × (String × String)) :=
  [ ( ("conservative", "low"),
      ("clear_match",
       "Established company with stable earnings and low price volatility - well aligned with conservative capital preservation goals.") ),
    ( ("conservative", "medium"),
      ("proceed_with_caution",
       "Moderate volatility may cause drawdowns that exceed conservative risk tolerance. Consider limiting position size.") ),
    ( ("conservative", "high"),
      ("not_suitable",
       "High price volatility is inappropriate for a conservative portfolio. Capital preservation should be the priority for this client.") ),
    ( ("moderate", "low"),
      ("clear_match",
       "Stable investment provides a solid foundation for a balanced portfolio.") ),
    ( ("moderate", "medium"),
      ("clear_match",
       "Volatility aligns well with moderate risk tolerance and growth objectives.") ),
    ( ("moderate", "high"),
      ("proceed_with_caution",
       "Higher volatility than typical moderate allocation. Keep position size proportionate to overall portfolio risk budget.") ),
    ( ("aggressive", "low"),
      ("clear_match",
       "Quality, stable company suitable as a defensive anchor in a growth portfolio.") ),
    ( ("aggressive", "medium"),
      ("clear_match",
       "Good growth-oriented investment with manageable volatility for this risk profile.") ),
    ( ("aggressive", "high"),
      ("clear_match",
       "High growth potential is appropriate for an aggressive risk tolerance. Ensure portfolio-level diversification is maintained.") ) ]

/- ---------------------------------------------------------------------
   scorer.py : handler
   --------------------------------------------------------------------- -/

/-- The Lambda event: AgentCore passes tool arguments as a flat payload.
`event.get(key, "")` is modelled by an `Option String` field with
`Option.getD` — `none` models an absent key. -/
structure Event where
  ticker : Option String := none
  risk_profile : Option String := none
deriving DecidableEq

/-- The JSON body of the successful scorer response (`result` dict). -/
structure Assessment where
  ticker : String
  risk_profile : String
  suitability : String
  reasoning : String
  volatility_assessed : String
deriving DecidableEq

/-- The response body: either the serialised assessment or the
serialised error object. -/
inductive Body where
  | ok (r : Assessment)
  | err (error : String)
deriving DecidableEq

/-- The handler return value: statusCode plus JSON body. -/
structure Response where
  statusCode : Nat
  body : Body
deriving DecidableEq

/-- The function `_error_response` from scorer.py. -/
def error_response (message : String) : Response :=
  { statusCode := 400, body := .err message }

/-- The set `valid_profiles` from the handler (the Python set literal, in source
order). -/
def valid_profiles : List String := ["conservative", "moderate", "aggressive"]

/-- The lookup `VOLATILITY_MAP.get(ticker, "medium")`. -/
def volLookup (ticker : String) : String :=
  ((VOLATILITY_MAP.find? (fun p => p.1 == ticker)).map Prod.snd).getD "medium"

/-- The lookup `SUITABILITY_MATRIX.get((risk_profile, volatility), fallback)`. -/
def matrixLookup (key : String × String) : String × String :=
  ((SUITABILITY_MATRIX.find? (fun p => p.1 == key)).map Prod.snd).getD
    ("proceed_with_caution", "Suitability could not be determined with available data.")

/-- The invalid-profile f-string message from the handler: the
comma-joined, sorted valid values, then the received value in single
quotes. -/
def profileErrorMessage (risk_profile : String) : String :=
  "risk_profile must be one of: "
    ++ ", ".intercalate (pysorted valid_profiles)
    ++ ". Received: \x27" ++ risk_profile ++ "\x27"

/-- The function `handler` from scorer.py (logging calls, which have no behavioural
effect, are dropped). -/
def handler (event : Event) : Response :=
  let ticker := pyUpper (pyStrip (event.ticker.getD ""))
  let risk_profile := pyLower (pyStrip (event.risk_profile.getD ""))
  if ticker = "" then
    error_response "ticker is required"
  else if risk_profile ∉ valid_profiles then
    error_response (profileErrorMessage risk_profile)
  else
    let volatility := volLookup ticker
    let sr := matrixLookup (risk_profile, volatility)
    { statusCode := 200,
      body := .ok
        { ticker := ticker,
          risk_profile := risk_profile,
          suitability := sr.1,
          reasoning := sr.2,
          volatility_assessed := volatility } }

example : (handler { ticker := some "tsla", risk_profile := some "CONSERVATIVE" }) =
    { statusCode := 200,
      body := .ok
        { ticker := "TSLA", risk_profile := "conservative",
          suitability := "not_suitable",
          reasoning := "High price volatility is inappropriate for a conservative portfolio. Capital preservation should be the priority for this client.",
          volatility_assessed := "high" } } := by decide

example : profileErrorMessage "bogus" =
    "risk_profile must be one of: aggressive, conservative, moderate. Received: \x27bogus\x27" := by
  decide

/- ---------------------------------------------------------------------
   Calendar dates (rata-die encoding of Python dates)
   --------------------------------------------------------------------- -/

/-- Civil date from a day number (days since 1970-01-01): the standard
proleptic-Gregorian conversion, giving (year, month, day). Used to model
Python `date.year`. -/
def civilFromDays (z0 : Int) : Int × Int × Int :=
  let z := z0 + 719468
  let era := z.fdiv 146097
  let doe := z - era * 146097
  let yoe := (doe - doe.fdiv 1460 + doe.fdiv 36524 - doe.fdiv 146096).fdiv 365
  let y := yoe + era * 400
  let doy := doe - (365 * yoe + yoe.fdiv 4 - yoe.fdiv 100)
  let mp := (5 * doy + 2).fdiv 153
  let d := doy - (153 * mp + 2).fdiv 5 + 1
  let m := mp + (if mp < 10 then 3 else -9)
  (y + (if m ≤ 2 then 1 else 0), m, d)

/-- Day number (days since 1970-01-01) of a civil date; the inverse of
`civilFromDays`. Used to build concrete dates in examples. -/
def daysFromCivil (y m d : Int) : Int :=
  let y2 := y - (if m ≤ 2 then 1 else 0)
  let era := y2.fdiv 400
  let yoe := y2 - era * 400
  let doy := (153 * (m + (if m > 2 then -3 else 9)) + 2).fdiv 5 + d - 1
  let doe := yoe * 365 + yoe.fdiv 4 - yoe.fdiv 100 + doy
  era * 146097 + doe - 719468

/-- The `.year` component of a rata-die day number. -/
def yearOf (z : Int) : Int := (civilFromDays z).1

example : yearOf (daysFromCivil 2025 12 28) = 2025 := by decide
example : yearOf (daysFromCivil 2025 12 28 + 7) = 2026 := by decide

/- ---------------------------------------------------------------------
   server.py : check_market_holidays
   --------------------------------------------------------------------- -/

/-- A holiday record as returned by the Nager.Date per-year fetch; the
code reads `holiday["date"]` (a "YYYY-MM-DD" string, here its rata-die
day number — `strptime` of a well-formed date string is this bijection)
and `holiday["localName"]`. -/
structure RawHoliday where
  date : Int
  localName : String
deriving DecidableEq

/-- Outcome of one `client.get(url)` + `raise_for_status()` +
`response.json()` round-trip for a single year: success with the decoded
list, an `httpx.HTTPStatusError` carrying `response.status_code`, or an
`httpx.RequestError` (transport failure). -/
inductive FetchResult where
  | success (holidays : List RawHoliday)
  | httpStatusError (status_code : Nat)
  | requestError
deriving DecidableEq

/-- A holiday entry of the success payload (`upcoming` list element). -/
structure OutHoliday where
  date : Int
  name : String
  is_trading_day : Bool
deriving DecidableEq

/-- The success payload of `check_market_holidays`. `period_start` and
`period_end` are rata-die day numbers (the code formats them as
"YYYY-MM-DD", a bijection on dates). -/
structure HolidayWindow where
  country_code : String
  period_start : Int
  period_end : Int
  holidays : List OutHoliday
  trading_days_affected : Nat
  advice : String
deriving DecidableEq

/-- Return value of `check_market_holidays`: one of the three error
dicts built in the `except` branches, or the success dict. -/
inductive CalResult where
  | errCountryNotFound (error : String) (valid_examples : List String)
  | errApi (error : String)
  | errRequest (error : String)
  | ok (w : HolidayWindow)
deriving DecidableEq

/-- The fetch loop of `check_market_holidays` (`for year in sorted(years)`
with its `try`/`except` body): on success extend the accumulator, on the
first failure return the corresponding error dict without touching the
remaining years. -/
def runFetch (country_code : String) (fetch : Int → FetchResult) :
    List Int → List RawHoliday → CalResult ⊕ List RawHoliday
  | [], acc => .inr acc
  | y :: ys, acc =>
    match fetch y with
    | .success hs => runFetch country_code fetch ys (acc ++ hs)
    | .httpStatusError code =>
      if code = 404 then
        .inl (.errCountryNotFound
          ("Country code \x27" ++ country_code ++ "\x27 not found in Nager.Date")
          ["AU", "US", "GB", "NZ", "JP"])
      else
        .inl (.errApi ("Holiday API returned " ++ toString code))
    | .requestError => .inl (.errRequest "Failed to reach holiday data service")

/-- The list `sorted(years)` where `years = {today.year}` plus `end_date.year`
when it differs. -/
def yearsToFetch (today days_ahead : Int) : List Int :=
  let yStart := yearOf today
  let yEnd := yearOf (today + days_ahead)
  if yEnd = yStart then [yStart]
  else if yStart < yEnd then [yStart, yEnd] else [yEnd, yStart]

/-- The tool `check_market_holidays` from server.py. `datetime.now()` is the
injected `today` (rata-die); `end_date = today + timedelta(days=days_ahead)`;
the date-window filter `today.date() <= holiday_date.date() <= end_date.date()`
is inclusive on both ends. The per-year HTTP round-trip is the injected
`fetch`. -/
def check_market_holidays (country_code : String) (days_ahead : Int)
    (today : Int) (fetch : Int → FetchResult) : CalResult :=
  let end_date := today + days_ahead
  match runFetch country_code fetch (yearsToFetch today days_ahead) [] with
  | .inl e => e
  | .inr all_holidays =>
    let upcoming := (all_holidays.filter
        (fun h => decide (today ≤ h.date) && decide (h.date ≤ end_date))).map
      (fun h => OutHoliday.mk h.date h.localName false)
    .ok
      { country_code := country_code,
        period_start := today,
        period_end := end_date,
        holidays := upcoming,
        trading_days_affected := upcoming.length,
        advice :=
          if upcoming.isEmpty then
            "No scheduled market closures in the next " ++ toString days_ahead ++ " days."
          else
            toString upcoming.length ++ " market closure(s) in the next "
              ++ toString days_ahead
              ++ " days. Plan trade executions and client meetings accordingly." }

/-- The records gathered by a fully successful fetch loop: concatenation
of the success payloads over the fetched years. -/
def successList : FetchResult → List RawHoliday
  | .success hs => hs
  | _ => []

/-- All records a fully successful run accumulates. -/
def fetchedRecords (today days_ahead : Int) (fetch : Int → FetchResult) :
    List RawHoliday :=
  (yearsToFetch today days_ahead).flatMap (fun y => successList (fetch y))

/- ---------------------------------------------------------------------
   Helper lemmas : strings and the scorer
   --------------------------------------------------------------------- -/

lemma pyUpper_empty_iff (s : String) : pyUpper s = "" ↔ s = "" := by
  constructor
  · intro h
    have h2 : (pyUpper s).data = ("" : String).data := by rw [h]
    have h3 : s.data = [] := List.map_eq_nil_iff.mp h2
    cases s with
    | mk data => cases h3; rfl
  · intro h; subst h; rfl

/-- The range of the volatility lookup is the three-tier enumeration. -/
lemma volLookup_mem (t : String) : volLookup t ∈ ["low", "medium", "high"] := by
  unfold volLookup
  cases h : VOLATILITY_MAP.find? (fun p => p.1 == t) with
  | none => simp
  | some p =>
    have hmem := List.mem_of_find?_eq_some h
    unfold VOLATILITY_MAP at hmem
    fin_cases hmem <;> simp

/-- Association-list semantics of the volatility map lookup. -/
lemma volLookup_eq_of_mem (t v : String) (h : (t, v) ∈ VOLATILITY_MAP) :
    volLookup t = v := by
  unfold VOLATILITY_MAP at h
  fin_cases h <;> decide

/-- Tickers absent from the volatility map default to "medium". -/
lemma volLookup_eq_default (t : String) (h : ∀ v, (t, v) ∉ VOLATILITY_MAP) :
    volLookup t = "medium" := by
  unfold volLookup
  cases hf : VOLATILITY_MAP.find? (fun p => p.1 == t) with
  | none => simp
  | some p =>
    have hp := List.find?_some hf
    have hmem := List.mem_of_find?_eq_some hf
    have hk : p.1 = t := by simpa using hp
    have hmem' : (t, p.2) ∈ VOLATILITY_MAP := by rw [← hk]; exact hmem
    exact absurd hmem' (h p.2)

/-- For a valid risk profile and any volatility in the lookup range, the
suitability matrix lookup hits a defined cell. -/
lemma matrix_find_isSome (rp vol : String)
    (hrp : rp ∈ valid_profiles) (hv : vol ∈ ["low", "medium", "high"]) :
    (SUITABILITY_MATRIX.find? (fun p => p.1 == (rp, vol))).isSome := by
  unfold valid_profiles at hrp
  fin_cases hrp <;> fin_cases hv <;> decide

/-- In the validated domain the matrix reasoning is never the defensive
fallback string. -/
lemma matrixLookup_reasoning_ne (rp vol : String)
    (hrp : rp ∈ valid_profiles) (hv : vol ∈ ["low", "medium", "high"]) :
    (matrixLookup (rp, vol)).2 ≠
      "Suitability could not be determined with available data." := by
  unfold valid_profiles at hrp
  fin_cases hrp <;> fin_cases hv <;> decide

/-- Success-path shape of the handler: when both validations pass, the
handler returns the 200 response assembled from the two lookups. -/
lemma handler_success (e : Event)
    (h1 : pyStrip (e.ticker.getD "") ≠ "")
    (h2 : pyLower (pyStrip (e.risk_profile.getD "")) ∈ valid_profiles) :
    handler e =
      { statusCode := 200,
        body := .ok
          { ticker := pyUpper (pyStrip (e.ticker.getD "")),
            risk_profile := pyLower (pyStrip (e.risk_profile.getD "")),
            suitability := (matrixLookup (pyLower (pyStrip (e.risk_profile.getD "")),
              volLookup (pyUpper (pyStrip (e.ticker.getD ""))))).1,
            reasoning := (matrixLookup (pyLower (pyStrip (e.risk_profile.getD "")),
              volLookup (pyUpper (pyStrip (e.ticker.getD ""))))).2,
            volatility_assessed := volLookup (pyUpper (pyStrip (e.ticker.getD ""))) } } := by
  have h1' : ¬ pyUpper (pyStrip (e.ticker.getD "")) = "" := by
    simpa [pyUpper_empty_iff] using h1
  unfold handler
  rw [if_neg h1', if_neg (not_not_intro h2)]

/-- Validation-failure shape of the handler, empty ticker. -/
lemma handler_empty_ticker (e : Event)
    (h1 : pyStrip (e.ticker.getD "") = "") :
    handler e = error_response "ticker is required" := by
  have h1' : pyUpper (pyStrip (e.ticker.getD "")) = "" := by
    rw [h1]; rfl
  unfold handler
  rw [if_pos h1']

/-- Validation-failure shape of the handler, invalid risk profile. -/
lemma handler_bad_profile (e : Event)
    (h1 : pyStrip (e.ticker.getD "") ≠ "")
    (h2 : pyLower (pyStrip (e.risk_profile.getD "")) ∉ valid_profiles) :
    handler e =
      error_response (profileErrorMessage (pyLower (pyStrip (e.risk_profile.getD "")))) := by
  have h1' : ¬ pyUpper (pyStrip (e.ticker.getD "")) = "" := by
    simpa [pyUpper_empty_iff] using h1
  unfold handler
  rw [if_neg h1', if_pos h2]

/-- The invalid-profile message spelled out: the sorted, comma-joined
valid values around the received value. -/
lemma profileErrorMessage_eq (rp : String) :
    profileErrorMessage rp =
      "risk_profile must be one of: aggressive, conservative, moderate. Received: \x27"
        ++ rp ++ "\x27" := by
  have h : ("risk_profile must be one of: "
      ++ ", ".intercalate (pysorted valid_profiles) ++ ". Received: \x27")
      = "risk_profile must be one of: aggressive, conservative, moderate. Received: \x27" := by
    decide
  unfold profileErrorMessage
  rw [← h]

/- ---------------------------------------------------------------------
   Helper lemmas : the fetch loop
   --------------------------------------------------------------------- -/

/-- Loop-body unfolding: a successful year extends the accumulator. -/
lemma runFetch_cons_success (cc : String) (f : Int → FetchResult)
    (y : Int) (ys : List Int) (acc hs : List RawHoliday)
    (h : f y = .success hs) :
    runFetch cc f (y :: ys) acc = runFetch cc f ys (acc ++ hs) := by
  rw [runFetch, h]

/-- Loop-body unfolding: a 404 status yields the country-not-found dict. -/
lemma runFetch_cons_404 (cc : String) (f : Int → FetchResult)
    (y : Int) (ys : List Int) (acc : List RawHoliday)
    (h : f y = .httpStatusError 404) :
    runFetch cc f (y :: ys) acc =
      .inl (.errCountryNotFound
        ("Country code \x27" ++ cc ++ "\x27 not found in Nager.Date")
        ["AU", "US", "GB", "NZ", "JP"]) := by
  rw [runFetch, h]
  rfl

/-- Loop-body unfolding: any other HTTP status yields the API-error dict. -/
lemma runFetch_cons_status (cc : String) (f : Int → FetchResult)
    (y : Int) (ys : List Int) (acc : List RawHoliday) (code : Nat)
    (h : f y = .httpStatusError code) (hc : code ≠ 404) :
    runFetch cc f (y :: ys) acc =
      .inl (.errApi ("Holiday API returned " ++ toString code)) := by
  rw [runFetch, h]
  exact if_neg hc

/-- Loop-body unfolding: a transport error yields the unreachable-service
dict. -/
lemma runFetch_cons_transport (cc : String) (f : Int → FetchResult)
    (y : Int) (ys : List Int) (acc : List RawHoliday)
    (h : f y = .requestError) :
    runFetch cc f (y :: ys) acc =
      .inl (.errRequest "Failed to reach holiday data service") := by
  rw [runFetch, h]

/-- The fetch loop only consults the fetch function on the listed years. -/
lemma runFetch_congr (cc : String) (f1 f2 : Int → FetchResult)
    (ys : List Int) (acc : List RawHoliday)
    (h : ∀ y ∈ ys, f1 y = f2 y) :
    runFetch cc f1 ys acc = runFetch cc f2 ys acc := by
  induction ys generalizing acc with
  | nil => rfl
  | cons y ys ih =>
    have hy : f1 y = f2 y := h y (List.mem_cons_self y ys)
    rw [runFetch, runFetch, hy]
    cases f2 y with
    | success hs => exact ih (acc ++ hs) (fun z hz => h z (List.mem_cons_of_mem _ hz))
    | httpStatusError code => rfl
    | requestError => rfl

/-- An early (`inl`) return of the fetch loop is always one of the three
error dicts, never the success payload. -/
lemma runFetch_inl_not_ok (cc : String) (f : Int → FetchResult)
    (ys : List Int) (acc : List RawHoliday) (e : CalResult) (w : HolidayWindow)
    (h : runFetch cc f ys acc = .inl e) : e ≠ .ok w := by
  induction ys generalizing acc with
  | nil => exact absurd h (by simp [runFetch])
  | cons y ys ih =>
    cases hf : f y with
    | success hs =>
      rw [runFetch_cons_success cc f y ys acc hs hf] at h
      exact ih _ h
    | httpStatusError code =>
      by_cases hc : code = 404
      · rw [hc] at hf
        rw [runFetch_cons_404 cc f y ys acc hf] at h
        injection h with h'
        rw [← h']
        simp
      · rw [runFetch_cons_status cc f y ys acc code hf hc] at h
        injection h with h'
        rw [← h']
        simp
    | requestError =>
      rw [runFetch_cons_transport cc f y ys acc hf] at h
      injection h with h'
      rw [← h']
      simp

/-- A normal (`inr`) completion of the fetch loop returns the
accumulator extended by the success payloads of all listed years. -/
lemma runFetch_inr_flatMap (cc : String) (f : Int → FetchResult)
    (ys : List Int) (acc out : List RawHoliday)
    (h : runFetch cc f ys acc = .inr out) :
    out = acc ++ ys.flatMap (fun y => successList (f y)) := by
  induction ys generalizing acc with
  | nil =>
    simp only [runFetch] at h
    injection h with h'
    simp [h'.symm]
  | cons y ys ih =>
    cases hf : f y with
    | success hs =>
      rw [runFetch_cons_success cc f y ys acc hs hf] at h
      have := ih (acc ++ hs) h
      simp [this, hf, successList, List.append_assoc]
    | httpStatusError code =>
      by_cases hc : code = 404
      · rw [hc] at hf
        rw [runFetch_cons_404 cc f y ys acc hf] at h
        simp at h
      · rw [runFetch_cons_status cc f y ys acc code hf hc] at h
        simp at h
    | requestError =>
      rw [runFetch_cons_transport cc f y ys acc hf] at h
      simp at h

/-- A normal completion of the fetch loop means the fetch succeeded on
every listed year. -/
lemma runFetch_inr_success (cc : String) (f : Int → FetchResult)
    (ys : List Int) (acc out : List RawHoliday)
    (h : runFetch cc f ys acc = .inr out) :
    ∀ y ∈ ys, ∃ hs, f y = .success hs := by
  induction ys generalizing acc with
  | nil => intro y hy; cases hy
  | cons y ys ih =>
    intro z hz
    cases hf : f y with
    | success hs =>
      rw [runFetch_cons_success cc f y ys acc hs hf] at h
      cases List.mem_cons.mp hz with
      | inl hzy => exact ⟨hs, by rw [hzy]; exact hf⟩
      | inr hzm => exact ih _ h z hzm
    | httpStatusError code =>
      by_cases hc : code = 404
      · rw [hc] at hf
        rw [runFetch_cons_404 cc f y ys acc hf] at h
        simp at h
      · rw [runFetch_cons_status cc f y ys acc code hf hc] at h
        simp at h
    | requestError =>
      rw [runFetch_cons_transport cc f y ys acc hf] at h
      simp at h

/-- The success payload `check_market_holidays` builds from a fully
successful run, as a function of the gathered records. -/
def windowOf (country_code : String) (days_ahead today : Int)
    (fetch : Int → FetchResult) : HolidayWindow :=
  let end_date := today + days_ahead
  let upcoming := ((fetchedRecords today days_ahead fetch).filter
      (fun h => decide (today ≤ h.date) && decide (h.date ≤ end_date))).map
    (fun h => OutHoliday.mk h.date h.localName false)
  { country_code := country_code,
    period_start := today,
    period_end := end_date,
    holidays := upcoming,
    trading_days_affected := upcoming.length,
    advice :=
      if upcoming.isEmpty then
        "No scheduled market closures in the next " ++ toString days_ahead ++ " days."
      else
        toString upcoming.length ++ " market closure(s) in the next "
          ++ toString days_ahead
          ++ " days. Plan trade executions and client meetings accordingly." }

/-- A successful `check_market_holidays` call returns exactly the window
assembled from the gathered records. -/
lemma check_ok_eq (cc : String) (d t : Int) (f : Int → FetchResult)
    (w : HolidayWindow) (h : check_market_holidays cc d t f = .ok w) :
    w = windowOf cc d t f := by
  unfold check_market_holidays at h
  cases hr : runFetch cc f (yearsToFetch t d) [] with
  | inl e =>
    rw [hr] at h
    exact absurd h (runFetch_inl_not_ok cc f _ _ e w hr)
  | inr all =>
    rw [hr] at h
    injection h with h'
    have hall : all = fetchedRecords t d f := by
      have := runFetch_inr_flatMap cc f _ [] all hr
      simpa [fetchedRecords] using this
    rw [← h', hall]
    rfl

/- ---------------------------------------------------------------------
   Concrete fetch functions for the witnesses
   --------------------------------------------------------------------- -/

/-- Example fetch data: holidays around the 2025/2026 new-year window. -/
def fetchHol : Int → FetchResult := fun y =>
  if y = 2025 then
    .success [⟨daysFromCivil 2025 12 25, "Christmas Day"⟩,
              ⟨daysFromCivil 2025 12 31, "New Year Eve"⟩]
  else if y = 2026 then
    .success [⟨daysFromCivil 2026 1 1, "New Year Day"⟩,
              ⟨daysFromCivil 2026 1 26, "Australia Day"⟩]
  else .success []

/-- Example fetch data: one holiday in 2024 and one in 2026, each dated
in its own year (2025 data exists conceptually but is never requested). -/
def fetchGap : Int → FetchResult := fun y =>
  if y = 2024 then .success [⟨daysFromCivil 2024 1 1, "New Year 2024"⟩]
  else if y = 2026 then .success [⟨daysFromCivil 2026 1 1, "New Year 2026"⟩]
  else .success []

/-- A fetch that always reports an unknown country. -/
def fetch404 : Int → FetchResult := fun _ => .httpStatusError 404

/-- A fetch that always reports a server error. -/
def fetch500 : Int → FetchResult := fun _ => .httpStatusError 500

/-- A fetch that always fails at the transport layer. -/
def fetchDown : Int → FetchResult := fun _ => .requestError

/-- A successful `check_market_holidays` call means the fetch loop ran
to normal completion. -/
lemma check_ok_runFetch (cc : String) (d t : Int) (f : Int → FetchResult)
    (w : HolidayWindow) (h : check_market_holidays cc d t f = .ok w) :
    ∃ all, runFetch cc f (yearsToFetch t d) [] = .inr all := by
  unfold check_market_holidays at h
  cases hr : runFetch cc f (yearsToFetch t d) [] with
  | inl e =>
    rw [hr] at h
    exact absurd h (runFetch_inl_not_ok cc f _ _ e w hr)
  | inr all => exact ⟨all, rfl⟩

/- ---------------------------------------------------------------------
   Claim theorems : scorer
   --------------------------------------------------------------------- -/

/-- C1: for every validated risk profile and every volatility value the
volatility lookup can produce, the suitability-matrix lookup hits one of
the 9 defined cells, and consequently no 200 response of the handler
ever carries the defensive fallback reasoning
"Suitability could not be determined with available data.". -/
theorem C1_matrix_total_no_fallback :
    (∀ rp t, rp ∈ valid_profiles →
      (SUITABILITY_MATRIX.find? (fun p => p.1 == (rp, volLookup t))).isSome) ∧
    (∀ e r, (handler e).body = .ok r →
      r.reasoning ≠ "Suitability could not be determined with available data.") := by
  constructor
  · intro rp t hrp
    exact matrix_find_isSome rp (volLookup t) hrp (volLookup_mem t)
  · intro e r h
    by_cases h1 : pyStrip (e.ticker.getD "") = ""
    · rw [handler_empty_ticker e h1] at h
      exact absurd h (by simp [error_response])
    · by_cases h2 : pyLower (pyStrip (e.risk_profile.getD "")) ∈ valid_profiles
      · rw [handler_success e h1 h2] at h
        injection h with h'
        rw [← h']
        exact matrixLookup_reasoning_ne _ _ h2 (volLookup_mem _)
      · rw [handler_bad_profile e h1 h2] at h
        exact absurd h (by simp [error_response])

/-- Witness for C1 at risk profile "conservative", ticker "AAPL", and a
concrete valid event. -/
theorem C1_witness :
    (SUITABILITY_MATRIX.find? (fun p => p.1 == ("conservative", volLookup "AAPL"))).isSome ∧
    ({ ticker := "AAPL", risk_profile := "moderate", suitability := "clear_match",
       reasoning := "Stable investment provides a solid foundation for a balanced portfolio.",
       volatility_assessed := "low" } : Assessment).reasoning ≠
      "Suitability could not be determined with available data." :=
  ⟨C1_matrix_total_no_fallback.1 "conservative" "AAPL" (by decide),
   C1_matrix_total_no_fallback.2 { ticker := some "AAPL", risk_profile := some "moderate" }
     _ (by decide)⟩

/-- C3: the handler returns statusCode 400 iff the ticker is empty after
trimming or the trimmed lower-cased risk profile is invalid; the
empty-ticker check runs first ("ticker is required" regardless of the
risk profile), and the invalid-profile message lists the three valid
values in lexicographic order. -/
theorem C3_validation (e : Event) :
    ((handler e).statusCode = 400 ↔
      (pyStrip (e.ticker.getD "") = "" ∨
        pyLower (pyStrip (e.risk_profile.getD "")) ∉ valid_profiles)) ∧
    (pyStrip (e.ticker.getD "") = "" →
      handler e = error_response "ticker is required") ∧
    (pyStrip (e.ticker.getD "") ≠ "" →
      pyLower (pyStrip (e.risk_profile.getD "")) ∉ valid_profiles →
      handler e = error_response
        ("risk_profile must be one of: aggressive, conservative, moderate. Received: \x27"
          ++ pyLower (pyStrip (e.risk_profile.getD "")) ++ "\x27")) := by
  by_cases h1 : pyStrip (e.ticker.getD "") = ""
  · rw [handler_empty_ticker e h1]
    exact ⟨by simp [error_response, h1], fun _ => rfl, fun h _ => absurd h1 h⟩
  · by_cases h2 : pyLower (pyStrip (e.risk_profile.getD "")) ∈ valid_profiles
    · rw [handler_success e h1 h2]
      refine ⟨by simp [h1, h2], fun h => absurd h h1, fun _ h => absurd h2 h⟩
    · rw [handler_bad_profile e h1 h2, profileErrorMessage_eq]
      exact ⟨by simp [error_response, h2], fun h => absurd h h1, fun _ _ => rfl⟩

/-- Witness for C3: an all-whitespace ticker fails with
"ticker is required", while a bad profile on a valid ticker fails with
the sorted-values message. -/
theorem C3_witness :
    handler { ticker := some "   ", risk_profile := some "moderate" } =
      error_response "ticker is required" ∧
    handler { ticker := some "AAPL", risk_profile := some "bogus" } =
      error_response
        ("risk_profile must be one of: aggressive, conservative, moderate. Received: \x27"
          ++ pyLower (pyStrip ((some "bogus" : Option String).getD "")) ++ "\x27") :=
  ⟨(C3_validation { ticker := some "   ", risk_profile := some "moderate" }).2.1 (by decide),
   (C3_validation { ticker := some "AAPL", risk_profile := some "bogus" }).2.2
     (by decide) (by decide)⟩

/-- C4: the nine suitability-matrix cells map exactly as specified, and
assess("tsla", "CONSERVATIVE") yields TSLA / conservative /
not_suitable / high. -/
theorem C4_matrix_cells :
    (matrixLookup ("conservative", "low")).1 = "clear_match" ∧
    (matrixLookup ("conservative", "medium")).1 = "proceed_with_caution" ∧
    (matrixLookup ("conservative", "high")).1 = "not_suitable" ∧
    (matrixLookup ("moderate", "low")).1 = "clear_match" ∧
    (matrixLookup ("moderate", "medium")).1 = "clear_match" ∧
    (matrixLookup ("moderate", "high")).1 = "proceed_with_caution" ∧
    (matrixLookup ("aggressive", "low")).1 = "clear_match" ∧
    (matrixLookup ("aggressive", "medium")).1 = "clear_match" ∧
    (matrixLookup ("aggressive", "high")).1 = "clear_match" ∧
    handler { ticker := some "tsla", risk_profile := some "CONSERVATIVE" } =
      { statusCode := 200,
        body := .ok
          { ticker := "TSLA", risk_profile := "conservative",
            suitability := "not_suitable",
            reasoning := "High price volatility is inappropriate for a conservative portfolio. Capital preservation should be the priority for this client.",
            volatility_assessed := "high" } } := by
  decide

/-- C5: every event with a non-empty trimmed ticker and a
case-insensitively valid risk profile gets a 200 response echoing the
upper-cased ticker and lower-cased profile, with a suitability, a
reasoning, and the volatility from the static map (default "medium" for
absent tickers). -/
theorem C5_success_response (e : Event)
    (h1 : pyStrip (e.ticker.getD "") ≠ "")
    (h2 : pyLower (pyStrip (e.risk_profile.getD "")) ∈ valid_profiles) :
    (handler e).statusCode = 200 ∧
    ∃ r : Assessment, (handler e).body = .ok r ∧
      r.ticker = pyUpper (pyStrip (e.ticker.getD "")) ∧
      r.risk_profile = pyLower (pyStrip (e.risk_profile.getD "")) ∧
      r.volatility_assessed = volLookup r.ticker ∧
      (∀ v, (r.ticker, v) ∈ VOLATILITY_MAP → r.volatility_assessed = v) ∧
      ((∀ v, (r.ticker, v) ∉ VOLATILITY_MAP) → r.volatility_assessed = "medium") := by
  rw [handler_success e h1 h2]
  refine ⟨rfl, _, rfl, rfl, rfl, rfl, ?_, ?_⟩
  · intro v hv
    exact volLookup_eq_of_mem _ v hv
  · intro hv
    exact volLookup_eq_default _ hv

/-- Witness for C5 at a padded, mixed-case valid event. -/
theorem C5_witness :
    (handler { ticker := some " nvda ", risk_profile := some " Aggressive " }).statusCode = 200 ∧
    ∃ r : Assessment,
      (handler { ticker := some " nvda ", risk_profile := some " Aggressive " }).body = .ok r ∧
      r.ticker = pyUpper (pyStrip ((some " nvda " : Option String).getD "")) ∧
      r.risk_profile = pyLower (pyStrip ((some " Aggressive " : Option String).getD "")) ∧
      r.volatility_assessed = volLookup r.ticker ∧
      (∀ v, (r.ticker, v) ∈ VOLATILITY_MAP → r.volatility_assessed = v) ∧
      ((∀ v, (r.ticker, v) ∉ VOLATILITY_MAP) → r.volatility_assessed = "medium") :=
  C5_success_response { ticker := some " nvda ", risk_profile := some " Aggressive " }
    (by decide) (by decide)

/-- C10: the handler is total over absent fields: a missing key is
handled exactly like the empty string, so a missing ticker yields the
400 "ticker is required" response and a missing risk profile yields a
400 response as well, never an exception. -/
theorem C10_missing_fields (tO rpO : Option String) :
    handler { ticker := none, risk_profile := rpO } = error_response "ticker is required" ∧
    handler { ticker := none, risk_profile := rpO } =
      handler { ticker := some "", risk_profile := rpO } ∧
    handler { ticker := tO, risk_profile := none } =
      handler { ticker := tO, risk_profile := some "" } ∧
    (handler { ticker := tO, risk_profile := none }).statusCode = 400 := by
  have hempty : pyStrip ((none : Option String).getD "") = "" := by decide
  have hempty2 : pyStrip ((some "" : Option String).getD "") = "" := by decide
  have hrpNone : pyLower (pyStrip ((none : Option String).getD "")) ∉ valid_profiles := by decide
  have hrpSome : pyLower (pyStrip ((some "" : Option String).getD "")) ∉ valid_profiles := by
    decide
  refine ⟨handler_empty_ticker _ hempty, ?_, ?_, ?_⟩
  · rw [handler_empty_ticker { ticker := none, risk_profile := rpO } hempty,
      handler_empty_ticker { ticker := some "", risk_profile := rpO } hempty2]
  · by_cases h1 : pyStrip (tO.getD "") = ""
    · rw [handler_empty_ticker { ticker := tO, risk_profile := none } h1,
        handler_empty_ticker { ticker := tO, risk_profile := some "" } h1]
    · rw [handler_bad_profile { ticker := tO, risk_profile := none } h1 hrpNone,
        handler_bad_profile { ticker := tO, risk_profile := some "" } h1 hrpSome]
      rfl
  · by_cases h1 : pyStrip (tO.getD "") = ""
    · rw [handler_empty_ticker { ticker := tO, risk_profile := none } h1]
      rfl
    · rw [handler_bad_profile { ticker := tO, risk_profile := none } h1 hrpNone]
      rfl

/- ---------------------------------------------------------------------
   Claim theorems : calendar
   --------------------------------------------------------------------- -/

/-- C2: any per-year fetch failure aborts the whole computation with no
partial data: a 404 yields the country-not-found error with the five
valid examples regardless of the remaining years, any other status
yields the distinct API error, a transport error yields the distinct
unreachable-service error, a 404 on the first fetched year surfaces at
the `check_market_holidays` level, and a success result exists only when
the fetch succeeded on every required year. -/
theorem C2_error_semantics :
    (∀ cc f y ys acc, f y = .httpStatusError 404 →
      runFetch cc f (y :: ys) acc =
        .inl (.errCountryNotFound
          ("Country code \x27" ++ cc ++ "\x27 not found in Nager.Date")
          ["AU", "US", "GB", "NZ", "JP"])) ∧
    (∀ cc f y ys acc code, f y = .httpStatusError code → code ≠ 404 →
      runFetch cc f (y :: ys) acc =
        .inl (.errApi ("Holiday API returned " ++ toString code))) ∧
    (∀ cc f y ys acc, f y = .requestError →
      runFetch cc f (y :: ys) acc =
        .inl (.errRequest "Failed to reach holiday data service")) ∧
    (∀ cc d t f y rest, yearsToFetch t d = y :: rest →
      f y = .httpStatusError 404 →
      check_market_holidays cc d t f =
        .errCountryNotFound
          ("Country code \x27" ++ cc ++ "\x27 not found in Nager.Date")
          ["AU", "US", "GB", "NZ", "JP"]) ∧
    (∀ cc d t f w, check_market_holidays cc d t f = .ok w →
      ∀ y ∈ yearsToFetch t d, ∃ hs, f y = .success hs) := by
  refine ⟨?_, ?_, ?_, ?_, ?_⟩
  · intro cc f y ys acc h
    exact runFetch_cons_404 cc f y ys acc h
  · intro cc f y ys acc code h hc
    exact runFetch_cons_status cc f y ys acc code h hc
  · intro cc f y ys acc h
    exact runFetch_cons_transport cc f y ys acc h
  · intro cc d t f y rest hyears hf
    unfold check_market_holidays
    rw [hyears, runFetch_cons_404 cc f y rest [] hf]
  · intro cc d t f w hok
    obtain ⟨all, hr⟩ := check_ok_runFetch cc d t f w hok
    exact runFetch_inr_success cc f _ [] all hr

/-- C6: on success the holidays list is exactly the fetched records with
date in [period_start, period_end] (inclusive both ends), each marked
is_trading_day = false; trading_days_affected is its length; and the
advice string is the closure message when non-empty and the no-closure
message otherwise. -/
theorem C6_window_contents (cc : String) (d t : Int) (f : Int → FetchResult)
    (w : HolidayWindow) (hok : check_market_holidays cc d t f = .ok w) :
    w.holidays = ((fetchedRecords t d f).filter
        (fun r => decide (t ≤ r.date) && decide (r.date ≤ t + d))).map
      (fun r => OutHoliday.mk r.date r.localName false) ∧
    (∀ h ∈ w.holidays, h.is_trading_day = false ∧
      w.period_start ≤ h.date ∧ h.date ≤ w.period_end) ∧
    (∀ r ∈ fetchedRecords t d f, t ≤ r.date → r.date ≤ t + d →
      OutHoliday.mk r.date r.localName false ∈ w.holidays) ∧
    w.trading_days_affected = w.holidays.length ∧
    w.advice = (if w.holidays.isEmpty then
        "No scheduled market closures in the next " ++ toString d ++ " days."
      else
        toString w.holidays.length ++ " market closure(s) in the next "
          ++ toString d
          ++ " days. Plan trade executions and client meetings accordingly.") := by
  rw [check_ok_eq cc d t f w hok]
  refine ⟨rfl, ?_, ?_, rfl, rfl⟩
  · intro h hmem
    simp only [windowOf, List.mem_map, List.mem_filter, Bool.and_eq_true,
      decide_eq_true_eq] at hmem
    obtain ⟨r, ⟨_, h1, h2⟩, hmk⟩ := hmem
    rw [← hmk]
    exact ⟨rfl, h1, h2⟩
  · intro r hr h1 h2
    simp only [windowOf, List.mem_map, List.mem_filter, Bool.and_eq_true,
      decide_eq_true_eq]
    exact ⟨r, ⟨hr, h1, h2⟩, rfl⟩

/-- C7: period_end is period_start plus days_ahead; the fetched years
are exactly the start year plus the end year when it differs, in
ascending order; at most two years are ever fetched, and the result
depends on the fetch function only at those years. -/
theorem C7_window_years (cc : String) (d t : Int) (f : Int → FetchResult) :
    (∀ w, check_market_holidays cc d t f = .ok w →
      w.period_start = t ∧ w.period_end = t + d) ∧
    yearOf t ∈ yearsToFetch t d ∧
    yearOf (t + d) ∈ yearsToFetch t d ∧
    (∀ y ∈ yearsToFetch t d, y = yearOf t ∨ y = yearOf (t + d)) ∧
    (yearsToFetch t d).length ≤ 2 ∧
    (yearsToFetch t d).Sorted (· < ·) ∧
    (∀ f2, (∀ y ∈ yearsToFetch t d, f y = f2 y) →
      check_market_holidays cc d t f = check_market_holidays cc d t f2) := by
  refine ⟨?_, ?_, ?_, ?_, ?_, ?_, ?_⟩
  · intro w hok
    rw [check_ok_eq cc d t f w hok]
    exact ⟨rfl, rfl⟩
  · unfold yearsToFetch
    by_cases h1 : yearOf (t + d) = yearOf t
    · simp [h1]
    · by_cases h2 : yearOf t < yearOf (t + d) <;> simp [h1, h2]
  · unfold yearsToFetch
    by_cases h1 : yearOf (t + d) = yearOf t
    · simp [h1]
    · by_cases h2 : yearOf t < yearOf (t + d) <;> simp [h1, h2]
  · unfold yearsToFetch
    by_cases h1 : yearOf (t + d) = yearOf t
    · simp [h1]
    · by_cases h2 : yearOf t < yearOf (t + d) <;> simp [h1, h2]
  · unfold yearsToFetch
    by_cases h1 : yearOf (t + d) = yearOf t
    · simp [h1]
    · by_cases h2 : yearOf t < yearOf (t + d) <;> simp [h1, h2]
  · unfold yearsToFetch
    by_cases h1 : yearOf (t + d) = yearOf t
    · simp [h1]
    · by_cases h2 : yearOf t < yearOf (t + d)
      · simp [h1, h2, List.sorted_cons]
      · have h3 : yearOf (t + d) < yearOf t := by omega
        simp [h1, h2, List.sorted_cons, h3]
  · intro f2 h
    unfold check_market_holidays
    rw [runFetch_congr cc f f2 _ [] h]

/-- C8: both components are deterministic: the scorer output is a
function of the ticker and risk_profile fields alone, and the calendar
output is a function of the inputs, the injected now and the fetch
results on the required years alone. -/
theorem C8_deterministic :
    (∀ e1 e2 : Event, e1.ticker = e2.ticker → e1.risk_profile = e2.risk_profile →
      handler e1 = handler e2) ∧
    (∀ cc d t f1 f2, (∀ y ∈ yearsToFetch t d, f1 y = f2 y) →
      check_market_holidays cc d t f1 = check_market_holidays cc d t f2) := by
  constructor
  · intro e1 e2 h1 h2
    cases e1
    cases e2
    cases h1
    cases h2
    rfl
  · intro cc d t f1 f2 h
    unfold check_market_holidays
    rw [runFetch_congr cc f1 f2 _ [] h]

/-- C9: when the window spans at least one full intermediate calendar
year, only the first and last years are fetched, so a holiday dated in
an intermediate year never appears in the output list — even when its
date lies inside [period_start, period_end]. -/
theorem C9_intermediate_year_gap (cc : String) (d t : Int) (f : Int → FetchResult)
    (hspan : yearOf t + 2 ≤ yearOf (t + d)) :
    yearsToFetch t d = [yearOf t, yearOf (t + d)] ∧
    (∀ y, yearOf t < y → y < yearOf (t + d) → y ∉ yearsToFetch t d) ∧
    (∀ w, check_market_holidays cc d t f = .ok w →
      (∀ y hs, f y = .success hs → ∀ r ∈ hs, yearOf r.date = y) →
      ∀ h ∈ w.holidays,
        ¬ (yearOf t < yearOf h.date ∧ yearOf h.date < yearOf (t + d))) := by
  have hyears : yearsToFetch t d = [yearOf t, yearOf (t + d)] := by
    unfold yearsToFetch
    have h1 : ¬ yearOf (t + d) = yearOf t := by omega
    have h2 : yearOf t < yearOf (t + d) := by omega
    simp [h1, h2]
  refine ⟨hyears, ?_, ?_⟩
  · intro y hy1 hy2 hmem
    rw [hyears] at hmem
    rcases List.mem_cons.mp hmem with h | h
    · omega
    · rcases List.mem_cons.mp h with h | h
      · omega
      · cases h
  · intro w hok hyear h hmem
    rw [check_ok_eq cc d t f w hok] at hmem
    simp only [windowOf, List.mem_map, List.mem_filter, Bool.and_eq_true,
      decide_eq_true_eq] at hmem
    obtain ⟨r, ⟨hrmem, _, _⟩, hmk⟩ := hmem
    unfold fetchedRecords at hrmem
    rw [List.mem_flatMap] at hrmem
    obtain ⟨y, hy, hr⟩ := hrmem
    cases hf : f y with
    | success hs =>
      rw [hf] at hr
      simp only [successList] at hr
      have hyr : yearOf r.date = y := hyear y hs hf r hr
      have hdate : h.date = r.date := by rw [← hmk]
      rw [hyears] at hy
      simp only [List.mem_cons, List.mem_singleton, List.not_mem_nil] at hy
      rw [hdate, hyr]
      rcases hy with hy | hy | hy
      · omega
      · omega
      · cases hy
    | httpStatusError code =>
      rw [hf] at hr
      simp [successList] at hr
    | requestError =>
      rw [hf] at hr
      simp [successList] at hr

/- ---------------------------------------------------------------------
   Witnesses : calendar
   --------------------------------------------------------------------- -/

/-- The concrete window `check_market_holidays "AU" 7 2025-12-28 fetchHol`
produces (dates as rata-die numbers: 20450 = 2025-12-28, 20453 =
2025-12-31, 20454 = 2026-01-01, 20457 = 2026-01-04). -/
def winHol : HolidayWindow :=
  { country_code := "AU", period_start := 20450, period_end := 20457,
    holidays := [⟨20453, "New Year Eve", false⟩, ⟨20454, "New Year Day", false⟩],
    trading_days_affected := 2,
    advice := "2 market closure(s) in the next 7 days. Plan trade executions and client meetings accordingly." }

/-- A fetch that agrees with `fetchHol` on 2025 and 2026 only. -/
def fetchHolOnly : Int → FetchResult := fun y =>
  if y = 2025 then fetchHol 2025
  else if y = 2026 then fetchHol 2026
  else .requestError

/-- The concrete window `check_market_holidays "AU" 800 2024-01-01 fetchGap`
produces (19723 = 2024-01-01, 20454 = 2026-01-01, 20523 = 2026-03-11). -/
def winGap : HolidayWindow :=
  { country_code := "AU", period_start := 19723, period_end := 20523,
    holidays := [⟨19723, "New Year 2024", false⟩, ⟨20454, "New Year 2026", false⟩],
    trading_days_affected := 2,
    advice := "2 market closure(s) in the next 800 days. Plan trade executions and client meetings accordingly." }

/-- Every record `fetchGap` returns for a year is dated in that year. -/
lemma fetchGap_year (y : Int) (hs : List RawHoliday)
    (h : fetchGap y = .success hs) : ∀ r ∈ hs, yearOf r.date = y := by
  unfold fetchGap at h
  by_cases h4 : y = 2024
  · rw [if_pos h4] at h
    injection h with h'
    rw [← h']
    intro r hr
    simp only [List.mem_singleton] at hr
    rw [hr, h4]
    decide
  · rw [if_neg h4] at h
    by_cases h6 : y = 2026
    · rw [if_pos h6] at h
      injection h with h'
      rw [← h']
      intro r hr
      simp only [List.mem_singleton] at hr
      rw [hr, h6]
      decide
    · rw [if_neg h6] at h
      injection h with h'
      rw [← h']
      intro r hr
      cases hr

/-- Witness for C2 at concrete fetch outcomes over the 2025/2026 window. -/
theorem C2_witness :
    runFetch "XX" fetch404 (2025 :: [2026]) [] =
      .inl (.errCountryNotFound
        ("Country code \x27" ++ "XX" ++ "\x27 not found in Nager.Date")
        ["AU", "US", "GB", "NZ", "JP"]) ∧
    runFetch "AU" fetch500 (2025 :: [2026]) [] =
      .inl (.errApi ("Holiday API returned " ++ toString (500 : Nat))) ∧
    runFetch "AU" fetchDown (2025 :: [2026]) [] =
      .inl (.errRequest "Failed to reach holiday data service") ∧
    check_market_holidays "XX" 7 (daysFromCivil 2025 12 28) fetch404 =
      .errCountryNotFound
        ("Country code \x27" ++ "XX" ++ "\x27 not found in Nager.Date")
        ["AU", "US", "GB", "NZ", "JP"] ∧
    (∃ hs, fetchHol 2025 = .success hs) :=
  ⟨C2_error_semantics.1 "XX" fetch404 2025 [2026] [] rfl,
   C2_error_semantics.2.1 "AU" fetch500 2025 [2026] [] 500 rfl (by decide),
   C2_error_semantics.2.2.1 "AU" fetchDown 2025 [2026] [] rfl,
   C2_error_semantics.2.2.2.1 "XX" 7 (daysFromCivil 2025 12 28) fetch404 2025 [2026]
     (by decide) rfl,
   C2_error_semantics.2.2.2.2 "AU" 7 (daysFromCivil 2025 12 28) fetchHol winHol
     (by decide) 2025 (by decide)⟩

/-- Witness for C6 at the concrete 2025/2026 new-year window. -/
theorem C6_witness :
    winHol.holidays = ((fetchedRecords (daysFromCivil 2025 12 28) 7 fetchHol).filter
        (fun r => decide (daysFromCivil 2025 12 28 ≤ r.date) &&
          decide (r.date ≤ daysFromCivil 2025 12 28 + 7))).map
      (fun r => OutHoliday.mk r.date r.localName false) ∧
    (∀ h ∈ winHol.holidays, h.is_trading_day = false ∧
      winHol.period_start ≤ h.date ∧ h.date ≤ winHol.period_end) ∧
    (∀ r ∈ fetchedRecords (daysFromCivil 2025 12 28) 7 fetchHol,
      daysFromCivil 2025 12 28 ≤ r.date → r.date ≤ daysFromCivil 2025 12 28 + 7 →
      OutHoliday.mk r.date r.localName false ∈ winHol.holidays) ∧
    winHol.trading_days_affected = winHol.holidays.length ∧
    winHol.advice = (if winHol.holidays.isEmpty then
        "No scheduled market closures in the next " ++ toString (7 : Int) ++ " days."
      else
        toString winHol.holidays.length ++ " market closure(s) in the next "
          ++ toString (7 : Int)
          ++ " days. Plan trade executions and client meetings accordingly.") :=
  C6_window_contents "AU" 7 (daysFromCivil 2025 12 28) fetchHol winHol (by decide)

/-- Witness for C7 at the concrete 2025/2026 new-year window. -/
theorem C7_witness :
    (winHol.period_start = daysFromCivil 2025 12 28 ∧
      winHol.period_end = daysFromCivil 2025 12 28 + 7) ∧
    yearOf (daysFromCivil 2025 12 28) ∈ yearsToFetch (daysFromCivil 2025 12 28) 7 ∧
    (yearsToFetch (daysFromCivil 2025 12 28) 7).length ≤ 2 ∧
    check_market_holidays "AU" 7 (daysFromCivil 2025 12 28) fetchHol =
      check_market_holidays "AU" 7 (daysFromCivil 2025 12 28) fetchHolOnly :=
  ⟨(C7_window_years "AU" 7 (daysFromCivil 2025 12 28) fetchHol).1 winHol (by decide),
   (C7_window_years "AU" 7 (daysFromCivil 2025 12 28) fetchHol).2.1,
   (C7_window_years "AU" 7 (daysFromCivil 2025 12 28) fetchHol).2.2.2.2.1,
   (C7_window_years "AU" 7 (daysFromCivil 2025 12 28) fetchHol).2.2.2.2.2.2
     fetchHolOnly (by decide)⟩

/-- Witness for C8: identical inputs give identical outputs, and two
fetch functions agreeing on the required years are indistinguishable. -/
theorem C8_witness :
    handler { ticker := some "AAPL", risk_profile := some "moderate" } =
      handler { ticker := some "AAPL", risk_profile := some "moderate" } ∧
    check_market_holidays "AU" 7 (daysFromCivil 2025 12 28) fetchHol =
      check_market_holidays "AU" 7 (daysFromCivil 2025 12 28) fetchHolOnly :=
  ⟨C8_deterministic.1 { ticker := some "AAPL", risk_profile := some "moderate" }
     { ticker := some "AAPL", risk_profile := some "moderate" } rfl rfl,
   C8_deterministic.2 "AU" 7 (daysFromCivil 2025 12 28) fetchHol fetchHolOnly
     (by decide)⟩

/-- Witness for C9 at a 800-day window from 2024-01-01: the year 2025 is
skipped and no output holiday is dated in it. -/
theorem C9_witness :
    yearsToFetch (daysFromCivil 2024 1 1) 800 =
      [yearOf (daysFromCivil 2024 1 1), yearOf (daysFromCivil 2024 1 1 + 800)] ∧
    (2025 : Int) ∉ yearsToFetch (daysFromCivil 2024 1 1) 800 ∧
    (∀ h ∈ winGap.holidays,
      ¬ (yearOf (daysFromCivil 2024 1 1) < yearOf h.date ∧
         yearOf h.date < yearOf (daysFromCivil 2024 1 1 + 800))) :=
  have hC := C9_intermediate_year_gap "AU" 800 (daysFromCivil 2024 1 1) fetchGap
    (by decide)
  ⟨hC.1, hC.2.1 2025 (by decide) (by decide),
   hC.2.2 winGap (by decide) fetchGap_year⟩
